import Mathlib

/-!
Verification development for the ut-api query pipeline.

This file gives a shallow embedding, in Lean 4, of the query-time
retrieval-and-attribution pipeline of the repository:

* `services/vector-store/src/index_manager.py` — relationship projection to
  searchable text and the filtered, ranked relationship search;
* `services/vector-store/src/vector_service.py` — the service wrapper that
  converts relationship hits into search results;
* `services/query-service/src/query_processor.py` — the query orchestrator
  (process_query / fallback_response / attribution extraction and scoring);
* `services/query-service/src/citation_service.py` — the source-verification
  cache decision of `CitationService.verify_source`.

Modelling conventions:

* Python floats are modelled as exact rationals (`ℚ`); the numeric literals
  0.1, 0.3, 0.7 ... of the source appear as the exact rationals 1/10, 3/10,
  7/10 and so on.
* Python dictionaries read with `.get(key, default)` are modelled as
  structures of `Option`-typed fields, with `Option.getD` playing the role
  of the defaulted read.  Python truthiness (`if x:` on strings, lists,
  optionals and integers) is modelled by the explicit `pyTruthy*` helpers.
* The two effectful collaborators of the orchestrator — the vector-store
  search client and the narrative synthesizer (language model) — are passed
  to `process_query` as oracle functions returning `Except Unit _`; a
  `.error ()` result models the call raising an exception.  All other code
  on the orchestrator path is pure and total, mirroring the fact that the
  corresponding Python is deterministic data shuffling.
* String operations are implemented over the character list of a `String`
  so that all definitions evaluate by kernel reduction; Python `len`,
  slicing and `str.lower` operate on code points exactly as these do.
* Python sets (used only to build discovery-pathway suggestions and a count
  of distinct sources) have unspecified iteration order; they are modelled
  by first-occurrence deduplication.  No theorem below depends on that
  order.
-/

/-! ## String helpers (Python string primitives) -/

/-- Python `s.lower()`, modelled on code points. -/
def lowerStr (s : String) : String := String.mk (s.data.map Char.toLower)

/-- Python slicing `s[:n]` on code points. -/
def takeStr (s : String) (n : Nat) : String := String.mk (s.data.take n)

/-- Python `needle in hay` substring test, as a proposition on code points. -/
def strContains (hay needle : String) : Prop := needle.data <:+: hay.data

instance (hay needle : String) : Decidable (strContains hay needle) :=
  List.decidableInfix _ _

/-- Boolean form of `strContains`. -/
def strContainsB (hay needle : String) : Bool := decide (strContains hay needle)

/-- Helper for `splitWhitespace`: walks the characters, accumulating the
current word in reverse. -/
def splitWsAux : List Char → List Char → List (List Char)
  | [], acc => if acc = [] then [] else [acc.reverse]
  | c :: cs, acc =>
    if c.isWhitespace then
      (if acc = [] then splitWsAux cs [] else acc.reverse :: splitWsAux cs [])
    else splitWsAux cs (c :: acc)

/-- Python `s.split()` with no separator: split on runs of whitespace and
drop empty chunks. -/
def splitWhitespace (s : String) : List String :=
  (splitWsAux s.data []).map String.mk

/-- Python truthiness of a string: non-empty. -/
def pyTruthyStr (s : String) : Bool := s ≠ ""

/-- Python truthiness of an optional string: present and non-empty. -/
def pyTruthyOptStr : Option String → Bool
  | none => false
  | some s => s ≠ ""

/-- Python truthiness of an optional integer: present and non-zero. -/
def pyTruthyOptInt : Option Int → Bool
  | none => false
  | some n => n ≠ 0

/-- First-occurrence deduplication; models building a Python `set` from a
list and iterating it (iteration order idealized as first occurrence). -/
def firstDedupAux : List String → List String → List String
  | [], _ => []
  | x :: xs, seen =>
    if x ∈ seen then firstDedupAux xs seen else x :: firstDedupAux xs (x :: seen)

/-- See `firstDedupAux`. -/
def firstDedup (l : List String) : List String := firstDedupAux l []

/-- Groups of at most three characters, used from the least significant end
by `formatThousands`. -/
def groupsOf3 : List Char → List (List Char)
  | [] => []
  | [a] => [[a]]
  | [a, b] => [[a, b]]
  | a :: b :: c :: rest => [a, b, c] :: groupsOf3 rest

/-- Python `f"{n:,}"`: decimal rendering with a comma every three digits. -/
def formatThousands (n : Nat) : String :=
  String.mk (((groupsOf3 (toString n).data.reverse).intersperse [',']).flatten.reverse)

/-- Python `f"{x:.2f}"` on a similarity score, idealized over exact
rationals: round to the nearest hundredth and print two decimals. -/
def formatFixed2 (x : ℚ) : String :=
  let n : ℤ := round (x * 100)
  let m := n.natAbs
  (if n < 0 then "-" else "") ++ toString (m / 100) ++ "." ++
    (if m % 100 < 10 then "0" else "") ++ toString (m % 100)

/-! ## Vector store: relationship records and search
(`services/vector-store/src/index_manager.py`) -/

/-- A knowledge-graph relationship record, as consumed by the vector store.
The Python code reads these as nested dictionaries via defaulted `.get`
calls; every field an `index_manager.py` or `vector_service.py` read path
touches is modelled, with `none` standing for an absent key.
`cultural_context` and `cultural_significance` live under the `metadata`
sub-dictionary in the source; `sa_source`, `sa_url` and
`sa_publication_type` live under `source_attribution`. -/
structure Relationship where
  source_entity : Option String
  target_entity : Option String
  relationship_type : Option String
  confidence : Option ℚ
  evidence : Option String
  cultural_context : Option String
  temporal_context : Option String
  cultural_significance : Option String
  sa_source : Option String
  sa_url : Option String
  sa_publication_type : Option String
deriving DecidableEq

/-- `rel.get('confidence', 0.0)`. -/
def relConfidence (r : Relationship) : ℚ := r.confidence.getD 0

/-- `IndexManager._create_searchable_text_from_relationship`: the projection
of a relationship to flat searchable text.  Fragments are appended only when
their Python truthiness condition holds, then joined with single spaces. -/
def _create_searchable_text_from_relationship (r : Relationship) : String :=
  let source_entity := r.source_entity.getD ""
  let target_entity := r.target_entity.getD ""
  let relationship_type := r.relationship_type.getD ""
  let parts : List String :=
    (if pyTruthyStr source_entity && pyTruthyStr target_entity then
       [source_entity ++ " " ++ relationship_type ++ " " ++ target_entity]
     else []) ++
    (if pyTruthyStr (r.evidence.getD "") then [r.evidence.getD ""] else []) ++
    (if pyTruthyStr (r.cultural_context.getD "") then [r.cultural_context.getD ""] else []) ++
    (if pyTruthyStr (r.temporal_context.getD "") then [r.temporal_context.getD ""] else []) ++
    (if pyTruthyStr (r.sa_source.getD "") then ["Source: " ++ r.sa_source.getD ""] else [])
  String.intercalate " " parts

/-- The projection exactly as the specification sentence words it: the first
fragment is included only when both entities AND the relationship type are
non-empty.  (Compare `_create_searchable_text_from_relationship`, where the
code never checks the type.)  Used to settle the projection claim. -/
def projectionPerClaim (r : Relationship) : String :=
  let fragments : List (Option String) :=
    [ (if r.source_entity.getD "" ≠ "" ∧ r.target_entity.getD "" ≠ "" ∧
          r.relationship_type.getD "" ≠ "" then
         some (r.source_entity.getD "" ++ " " ++ r.relationship_type.getD "" ++ " " ++
               r.target_entity.getD "")
       else none)
    , (if r.evidence.getD "" ≠ "" then some (r.evidence.getD "") else none)
    , (if r.cultural_context.getD "" ≠ "" then some (r.cultural_context.getD "") else none)
    , (if r.temporal_context.getD "" ≠ "" then some (r.temporal_context.getD "") else none)
    , (if r.sa_source.getD "" ≠ "" then some ("Source: " ++ r.sa_source.getD "") else none) ]
  String.intercalate " " (fragments.filterMap id)

/-- The amended projection sentence: fragment 1 requires only that both
entities are non-empty; the relationship type is interpolated unchecked
(an empty type yields a double space). -/
def projectionAmended (r : Relationship) : String :=
  let fragments : List (Option String) :=
    [ (if r.source_entity.getD "" ≠ "" ∧ r.target_entity.getD "" ≠ "" then
         some (r.source_entity.getD "" ++ " " ++ r.relationship_type.getD "" ++ " " ++
               r.target_entity.getD "")
       else none)
    , (if r.evidence.getD "" ≠ "" then some (r.evidence.getD "") else none)
    , (if r.cultural_context.getD "" ≠ "" then some (r.cultural_context.getD "") else none)
    , (if r.temporal_context.getD "" ≠ "" then some (r.temporal_context.getD "") else none)
    , (if r.sa_source.getD "" ≠ "" then some ("Source: " ++ r.sa_source.getD "") else none) ]
  String.intercalate " " (fragments.filterMap id)

/-- A search hit of `IndexManager.search_relationships`: the relationship,
its relevance score and the (truncated) lower-cased searchable text. -/
structure SearchHit where
  relationship : Relationship
  relevance_score : ℚ
  searchable_text : String
deriving DecidableEq

/-- `query_lower.split()` of the search: the lower-cased query terms. -/
def queryTerms (q : String) : List String := splitWhitespace (lowerStr q)

/-- `sum(1 for term in query_terms if term in searchable_text)`: the number
of (lower-cased) query terms occurring as substrings of the lower-cased
projected text of `r`. -/
def termMatches (q : String) (r : Relationship) : Nat :=
  ((queryTerms q).filter
    (fun term => strContainsB (lowerStr (_create_searchable_text_from_relationship r)) term)).length

/-- Truncation applied to the echoed searchable text of a hit:
`text[:200] + '...' if len(text) > 200 else text`. -/
def truncateEcho (text : String) : String :=
  if 200 < text.length then takeStr text 200 ++ "..." else text

/-- The per-relationship body of the search loop after the filters: computes
the relevance score and keeps the relationship only when at least one query
term matched. -/
def relevanceHit (q : String) (r : Relationship) : Option SearchHit :=
  let matchCount := termMatches q r
  if 0 < matchCount then
    some { relationship := r
         , relevance_score := (matchCount : ℚ) / ((queryTerms q).length : ℚ)
         , searchable_text := truncateEcho (lowerStr (_create_searchable_text_from_relationship r)) }
  else none

/-- The `source_filter` check: skipped when the filter is absent or empty
(Python truthiness), otherwise a case-insensitive substring match against
`source_attribution.source`. -/
def sourceFilterOk (source_filter : Option String) (r : Relationship) : Bool :=
  match source_filter with
  | none => true
  | some f =>
    if f = "" then true
    else strContainsB (lowerStr (r.sa_source.getD "")) (lowerStr f)

/-- The `entity_filter` check: skipped when absent or empty, otherwise a
case-insensitive substring match against either entity. -/
def entityFilterOk (entity_filter : Option String) (r : Relationship) : Bool :=
  match entity_filter with
  | none => true
  | some f =>
    if f = "" then true
    else strContainsB (lowerStr (r.source_entity.getD "")) (lowerStr f) ||
         strContainsB (lowerStr (r.target_entity.getD "")) (lowerStr f)

/-- All three filters of the search loop; a relationship is `continue`d past
exactly when this is false. -/
def passesFilters (source_filter entity_filter : Option String) (min_confidence : ℚ)
    (r : Relationship) : Bool :=
  sourceFilterOk source_filter r && entityFilterOk entity_filter r &&
    decide (min_confidence ≤ relConfidence r)

/-- The sort relation of `results.sort(key=lambda x: (relevance, confidence),
reverse=True)`: `a` may precede `b` when the key pair of `b` is
lexicographically at most that of `a`. -/
def hitSortLe (a b : SearchHit) : Bool :=
  decide (b.relevance_score < a.relevance_score ∨
          (b.relevance_score = a.relevance_score ∧
           relConfidence b.relationship ≤ relConfidence a.relationship))

/-- `IndexManager.search_relationships`: filter, score, sort descending by
(relevance, confidence), truncate to `k`.  The early return on an empty
corpus is the `if not self.relationships` guard. -/
def search_relationships (relationships : List Relationship) (query : String) (k : Nat)
    (source_filter entity_filter : Option String) (min_confidence : ℚ) : List SearchHit :=
  if relationships.isEmpty then []
  else
    ((relationships.filterMap (fun r =>
        if passesFilters source_filter entity_filter min_confidence r then
          relevanceHit query r
        else none)).mergeSort hitSortLe).take k

/-! ## Vector service wrapper (`services/vector-store/src/vector_service.py`) -/

/-- The `source_info` of a converted search result (vector-store side). -/
structure VSSourceInfo where
  source : String
  title : String
  url : String
  content_type : String
deriving DecidableEq

/-- The `chunk_metadata` of a converted search result. -/
structure VSChunkMetadata where
  chunk_type : String
  relationship_type : String
  confidence : Option ℚ
  cultural_significance : Option String
  temporal_context : String
deriving DecidableEq

/-- A `SearchResult` built by `VectorService.search` from a relationship hit. -/
structure VSSearchResult where
  chunk_id : String
  content : String
  source_info : VSSourceInfo
  similarity_score : ℚ
  entities : List String
  chunk_metadata : VSChunkMetadata
deriving DecidableEq

/-- The `filters_applied` field of a `SearchResponse`: either the empty
dictionary or the echo of the requested filters. -/
inductive FiltersApplied where
  | emptyDict : FiltersApplied
  | applied (source_filter entity_filter : Option (List String)) (min_confidence : ℚ) :
      FiltersApplied
deriving DecidableEq

/-- A `SearchResponse` of the vector service (timing fields are set to 0 by
the service and overwritten by `app.py`, outside this model). -/
structure VSSearchResponse where
  results : List VSSearchResult
  search_time_ms : Nat
  total_results : Nat
  query_embedding_time_ms : Nat
  filters_applied : FiltersApplied
deriving DecidableEq

/-- `source_filter[0] if source_filter else None`: Python truthiness of the
optional list followed by taking the first element. -/
def firstFilter : Option (List String) → Option String
  | none => none
  | some [] => none
  | some (x :: _) => some x

/-- Python truthiness of an optional list: present and non-empty. -/
def pyTruthyOptList : Option (List String) → Bool
  | none => false
  | some l => l ≠ []

/-- The per-hit conversion loop body of `VectorService.search`: builds the
descriptive content and wraps the relationship hit as a `SearchResult`.
`i` is the enumeration index used for the chunk id. -/
def convertRelationshipHit (i : Nat) (h : SearchHit) : VSSearchResult :=
  let rel := h.relationship
  let source_entity := rel.source_entity.getD ""
  let target_entity := rel.target_entity.getD ""
  let relationship_type := rel.relationship_type.getD ""
  let evidence := rel.evidence.getD ""
  let temporal_context := rel.temporal_context.getD ""
  let content_parts : List String :=
    (if pyTruthyStr source_entity && pyTruthyStr target_entity &&
        pyTruthyStr relationship_type then
       [source_entity ++ " " ++ relationship_type ++ " " ++ target_entity ++ "."]
     else []) ++
    (if pyTruthyStr evidence then [evidence] else []) ++
    (if pyTruthyStr temporal_context then ["Context: " ++ temporal_context] else [])
  { chunk_id := "enhanced-rel-" ++ toString i
  , content := String.intercalate " " content_parts
  , source_info :=
      { source := rel.sa_source.getD "Unknown"
      , title := source_entity ++ " - " ++ target_entity ++ " Relationship"
      , url := rel.sa_url.getD ""
      , content_type := rel.sa_publication_type.getD "article" }
  , similarity_score := h.relevance_score
  , entities := [source_entity, target_entity]
  , chunk_metadata :=
      { chunk_type := "enhanced_relationship"
      , relationship_type := relationship_type
      , confidence := rel.confidence
      , cultural_significance := rel.cultural_significance
      , temporal_context := temporal_context } }

/-- `VectorService.search`: forwards only the FIRST element of each filter
list to `IndexManager.search_relationships`, converts the hits, and echoes
the requested filters when any was given. -/
def vector_service_search (relationships : List Relationship) (query : String) (k : Nat)
    (source_filter entity_filter : Option (List String)) (min_confidence : ℚ) :
    VSSearchResponse :=
  let hits := search_relationships relationships query k
    (firstFilter source_filter) (firstFilter entity_filter) min_confidence
  let results := hits.enum.map (fun p => convertRelationshipHit p.1 p.2)
  { results := results
  , search_time_ms := 0
  , total_results := results.length
  , query_embedding_time_ms := 0
  , filters_applied :=
      if pyTruthyOptList source_filter || pyTruthyOptList entity_filter ||
         decide ((0 : ℚ) < min_confidence) then
        .applied source_filter entity_filter min_confidence
      else .emptyDict }

/-! ## Query service data model (`services/query-service/src/contracts.py`) -/

/-- The `source_info` dictionary carried by a `VectorSearchResult` on the
query-service side, read only through defaulted `.get` calls. -/
structure SourceInfoDict where
  source : Option String
  title : Option String
  url : Option String
  author : Option String
  published_date : Option String
  content_type : Option String
deriving DecidableEq

/-- One entry of the `entity_attributions` list inside `chunk_metadata`. -/
structure EntityAttributionData where
  entity : Option String
  evidence : Option String
  confidence : Option ℚ
  citation : Option String
deriving DecidableEq

/-- The `chunk_metadata` dictionary of a `VectorSearchResult`, restricted to
the keys `query_processor.py` reads. -/
structure ChunkMetadataDict where
  relationship_type : Option String
  entity_attributions : List EntityAttributionData
  chunk_start_position : Option Int
  chunk_end_position : Option Int
  paragraph_numbers : List Int
  evidence_type : Option String
  attribution_completeness : Option ℚ
deriving DecidableEq

/-- `contracts.VectorSearchResult`: one hit as seen by the query service. -/
structure VectorSearchResult where
  chunk_id : String
  content : String
  similarity_score : ℚ
  source_info : SourceInfoDict
  entities : List String
  chunk_metadata : ChunkMetadataDict
deriving DecidableEq

/-- `contracts.SourceAttribution` (legacy attribution format). -/
structure SourceAttribution where
  source : String
  artist : Option String
  content_type : String
  confidence : ℚ
  excerpt : String
  url : Option String
  published_date : Option String
  relationship_type : Option String
deriving DecidableEq

/-- `contracts.EnhancedSourceAttribution` (citation-system attribution). -/
structure EnhancedSourceAttribution where
  source : String
  artist : Option String
  content_type : String
  confidence : ℚ
  evidence_text : String
  evidence_type : String
  start_position : Option Int
  end_position : Option Int
  paragraph_number : Option Int
  url : Option String
  published_date : Option String
  citation : Option String
  source_credibility : Option ℚ
  relationship_type : Option String
deriving DecidableEq

/-- A value of the untyped `stats` dictionary: number or string. -/
inductive StatValue where
  | num : ℚ → StatValue
  | str : String → StatValue
deriving DecidableEq

/-- `contracts.QueryResponse` (legacy response shape; `query_time_ms` is
always 0 here, set later by `app.py`). -/
structure QueryResponse where
  response : String
  sources : List SourceAttribution
  query_time_ms : Nat
  discovery_pathways : Option (List String)
  stats : List (String × StatValue)
  mode : String
deriving DecidableEq

/-- `contracts.EnhancedQueryResponse` with the three quality metrics. -/
structure EnhancedQueryResponse where
  response : String
  sources : List EnhancedSourceAttribution
  query_time_ms : Nat
  discovery_pathways : Option (List String)
  stats : List (String × StatValue)
  mode : String
  attribution_quality : ℚ
  citation_readiness : ℚ
  source_verification_score : ℚ
deriving DecidableEq

/-- The value returned by `QueryProcessor.process_query`: either a legacy
`QueryResponse` or an `EnhancedQueryResponse`. -/
inductive ProcessQueryResult where
  | legacy : QueryResponse → ProcessQueryResult
  | enhanced : EnhancedQueryResponse → ProcessQueryResult
deriving DecidableEq

/-- Whether a result is the enhanced response shape (which always carries
`mode = "enhanced"` in this pipeline). -/
def ProcessQueryResult.isEnhanced : ProcessQueryResult → Bool
  | .legacy _ => false
  | .enhanced _ => true

/-- `contracts.CulturalCartographerContext`: the context handed to the
narrative synthesizer. -/
structure CulturalCartographerContext where
  query : String
  search_results : List VectorSearchResult
  total_relationships : Nat
  source_distribution : List (String × Nat)
deriving DecidableEq

/-- The argument record of one `VectorStoreClient.search` call. -/
structure SearchCallArgs where
  query : String
  k : Nat
  source_filter : Option (List String)
  entity_filter : Option (List String)
  min_confidence : ℚ
deriving DecidableEq

/-! ## Query processor (`services/query-service/src/query_processor.py`) -/

/-- `content[:200] + "..." if len(content) > 200 else content`. -/
def excerpt200 (content : String) : String :=
  if 200 < content.length then takeStr content 200 ++ "..." else content

/-- `content[:150] + "..." if len(content) > 150 else content`. -/
def excerpt150 (content : String) : String :=
  if 150 < content.length then takeStr content 150 ++ "..." else content

/-- `QueryProcessor._extract_source_attributions`: legacy attributions, one
per search result. -/
def _extract_source_attributions (search_results : List VectorSearchResult) :
    List SourceAttribution :=
  search_results.map (fun result =>
    { source := result.source_info.source.getD "Unknown Source"
    , artist := result.entities.head?
    , content_type := result.source_info.content_type.getD "article"
    , confidence := result.similarity_score
    , excerpt := excerpt200 result.content
    , url := result.source_info.url
    , published_date := none
    , relationship_type := result.chunk_metadata.relationship_type })

/-- `QueryProcessor._generate_basic_citation`.  Note the source quirk kept
here: the ellipsis test for the title uses the default `''` while the title
text uses the default `'Unknown Title'`. -/
def _generate_basic_citation (source_info : SourceInfoDict) (evidence_text : String) :
    String :=
  let author := source_info.author.getD "Unknown Author"
  let title := takeStr (source_info.title.getD "Unknown Title") 50 ++
    (if 50 < (source_info.title.getD "").length then "..." else "")
  let source := source_info.source.getD "Unknown Source"
  let excerpt := takeStr evidence_text 50 ++
    (if 50 < evidence_text.length then "..." else "")
  "\"" ++ excerpt ++ "\" from " ++ title ++ " by " ++ author ++ ", " ++ source

/-- `QueryProcessor._create_enhanced_attribution_from_entity_data`. -/
def _create_enhanced_attribution_from_entity_data (entity_attr : EntityAttributionData)
    (source_info : SourceInfoDict) (result : VectorSearchResult) :
    EnhancedSourceAttribution :=
  { source := source_info.source.getD "Unknown Source"
  , artist := entity_attr.entity
  , content_type := source_info.content_type.getD "article"
  , confidence := entity_attr.confidence.getD result.similarity_score
  , evidence_text := entity_attr.evidence.getD (takeStr result.content 200)
  , evidence_type := result.chunk_metadata.evidence_type.getD "contextual"
  , start_position := result.chunk_metadata.chunk_start_position
  , end_position := result.chunk_metadata.chunk_end_position
  , paragraph_number := result.chunk_metadata.paragraph_numbers.head?
  , url := source_info.url
  , published_date := source_info.published_date
  , citation := some (entity_attr.citation.getD "")
  , source_credibility := some (result.chunk_metadata.attribution_completeness.getD 0)
  , relationship_type := result.chunk_metadata.relationship_type }

/-- `QueryProcessor._create_enhanced_attribution_from_legacy`. -/
def _create_enhanced_attribution_from_legacy (result : VectorSearchResult) :
    EnhancedSourceAttribution :=
  let evidence_text := excerpt200 result.content
  { source := result.source_info.source.getD "Unknown Source"
  , artist := result.entities.head?
  , content_type := result.source_info.content_type.getD "article"
  , confidence := result.similarity_score
  , evidence_text := evidence_text
  , evidence_type := "contextual"
  , start_position := none
  , end_position := none
  , paragraph_number := none
  , url := result.source_info.url
  , published_date := result.source_info.published_date
  , citation := some (_generate_basic_citation result.source_info evidence_text)
  , source_credibility := none
  , relationship_type := result.chunk_metadata.relationship_type }

/-- `QueryProcessor._extract_enhanced_source_attributions`: one attribution
per `entity_attributions` entry when that metadata is present, else one
legacy-derived attribution per result. -/
def _extract_enhanced_source_attributions (search_results : List VectorSearchResult) :
    List EnhancedSourceAttribution :=
  search_results.flatMap (fun result =>
    match result.chunk_metadata.entity_attributions with
    | [] => [_create_enhanced_attribution_from_legacy result]
    | entity_attrs =>
      entity_attrs.map (fun entity_attr =>
        _create_enhanced_attribution_from_entity_data entity_attr result.source_info result))

/-- The per-attribution completeness score accumulated inside
`QueryProcessor._calculate_attribution_quality_metrics`, with the source's
sequential increments. -/
def attributionScore (attr : EnhancedSourceAttribution) : ℚ :=
  let score : ℚ := 0
  let score := if pyTruthyStr attr.evidence_text && decide (10 < attr.evidence_text.length)
    then score + 3/10 else score
  let score := if pyTruthyOptStr attr.url then score + 2/10 else score
  let score := if pyTruthyOptStr attr.citation then score + 2/10 else score
  let score := if pyTruthyOptInt attr.paragraph_number ||
      (pyTruthyOptInt attr.start_position && pyTruthyOptInt attr.end_position)
    then score + 2/10 else score
  let score := if decide ((7:ℚ)/10 < attr.confidence) then score + 1/10 else score
  score

/-- The `citation_ready` predicate of the metrics computation:
`attr.citation or (attr.url and attr.source and attr.evidence_text)`. -/
def citationReadyAttr (attr : EnhancedSourceAttribution) : Bool :=
  pyTruthyOptStr attr.citation ||
    (pyTruthyOptStr attr.url && pyTruthyStr attr.source && pyTruthyStr attr.evidence_text)

/-- The result triple of `_calculate_attribution_quality_metrics`. -/
structure QualityMetrics where
  attribution_quality : ℚ
  citation_readiness : ℚ
  source_verification_score : ℚ
deriving DecidableEq

/-- `QueryProcessor._calculate_attribution_quality_metrics`. -/
def _calculate_attribution_quality_metrics
    (attributions : List EnhancedSourceAttribution) : QualityMetrics :=
  if attributions.isEmpty then
    { attribution_quality := 0, citation_readiness := 0, source_verification_score := 0 }
  else
    let attribution_scores := attributions.map attributionScore
    let attribution_quality := attribution_scores.sum / (attribution_scores.length : ℚ)
    let citation_ready := (attributions.filter citationReadyAttr).length
    let verified_sources := (attributions.filter (fun a => pyTruthyOptStr a.url)).length
    { attribution_quality := attribution_quality
    , citation_readiness := (citation_ready : ℚ) / (attributions.length : ℚ)
    , source_verification_score := (verified_sources : ℚ) / (attributions.length : ℚ) }

/-- `QueryProcessor._extract_discovery_pathways` (the `response_text`
parameter is accepted and unused, as in the source). -/
def _extract_discovery_pathways (_response_text : String)
    (search_results : List VectorSearchResult) : List String :=
  let entity_list := (firstDedup (search_results.flatMap (fun r => r.entities))).take 10
  let base := match entity_list with
    | e0 :: e1 :: _ =>
      [ "Explore connections between " ++ e0 ++ " and " ++ e1
      , "Discover who influenced " ++ e0
      , "Find artists similar to " ++ e0 ]
    | _ => []
  let relationship_types := (firstDedup (search_results.filterMap (fun r =>
    match r.chunk_metadata.relationship_type with
    | some t => if t ≠ "" then some t else none
    | none => none))).take 2
  (base ++ relationship_types.map (fun t => "Explore more " ++ t ++ " relationships")).take 5

/-- `QueryProcessor._extract_enhanced_discovery_pathways`. -/
def _extract_enhanced_discovery_pathways (_response_text : String)
    (enhanced_attributions : List EnhancedSourceAttribution) : List String :=
  let high_quality_entities :=
    (enhanced_attributions.filter (fun a =>
      pyTruthyOptStr a.artist && decide ((8:ℚ)/10 < a.confidence))).map
      (fun a => a.artist.getD "")
  let base := match high_quality_entities with
    | a0 :: a1 :: _ =>
      [ "Explore verified connections between " ++ a0 ++ " and " ++ a1
      , "Find well-documented influences on " ++ a0
      , "Discover cited collaborations of " ++ a0 ]
    | _ => []
  let high_credibility_sources :=
    (enhanced_attributions.filter (fun a =>
      match a.source_credibility with
      | some c => decide ((8:ℚ)/10 < c)
      | none => false)).map (fun a => a.source)
  let source_paths := (firstDedup (high_credibility_sources.take 2)).map
    (fun s => "Explore more insights from " ++ s)
  let citation_ready_count :=
    (enhanced_attributions.filter (fun a => pyTruthyOptStr a.citation)).length
  let citation_paths :=
    if 2 < citation_ready_count then ["Find more academically citable sources"] else []
  (base ++ source_paths ++ citation_paths).take 5

/-- `QueryProcessor._build_fallback_text`. -/
def _build_fallback_text (query : String) (search_results : List VectorSearchResult) :
    String :=
  let header :=
    [ "Based on your query \"" ++ query ++ "\", I found " ++
        toString search_results.length ++
        " relevant connections in our enhanced knowledge graph:"
    , "" ]
  let items := (search_results.take 3).enum.flatMap (fun p =>
    let i := p.1 + 1
    let result := p.2
    [ "**" ++ toString i ++ ". From " ++ result.source_info.source.getD "Source" ++
        " (" ++ formatFixed2 result.similarity_score ++ " relevance):**"
    , excerpt150 result.content ] ++
    (match result.source_info.url with
     | some u => if u ≠ "" then ["[Read full article](" ++ u ++ ")"] else []
     | none => []) ++ [""])
  let extra :=
    if 3 < search_results.length then
      [ "*Plus " ++ toString (search_results.length - 3) ++
          " additional connections available*", "" ]
    else []
  let closing :=
    [ "**Note:** The Cultural Cartographer is temporarily unavailable, so I\x27m showing direct search results from our knowledge graph. Each result includes source attribution and confidence scores."
    , ""
    , "What would you like to explore next?" ]
  String.intercalate "\n" (header ++ items ++ extra ++ closing)

/-- The text of `QueryProcessor._create_empty_response`, with the corpus
size rendered through `formatThousands` (the `:,` format specifier). -/
def emptyResponseText (total_relationships : Nat) (query : String) : String :=
  "I couldn\x27t find specific information about \"" ++ query ++
  "\" in our current knowledge graph. This could mean:\n\n• The topic isn\x27t covered in our sources (Billboard, Pitchfork, NPR, Guardian)\n• Try rephrasing your query with different terms\n• Ask about more mainstream artists or well-documented influences\n\nOur knowledge graph contains " ++
  formatThousands total_relationships ++
  " relationships. What else would you like to explore?"

/-- `QueryProcessor._create_empty_response`. -/
def _create_empty_response (total_relationships : Nat) (query : String) : QueryResponse :=
  { response := emptyResponseText total_relationships query
  , sources := []
  , query_time_ms := 0
  , discovery_pathways := some
      [ "Try searching for mainstream artists"
      , "Explore genre-based queries"
      , "Ask about musical influences or collaborations" ]
  , stats :=
      [ ("search_results_count", .num 0)
      , ("sources_count", .num 0)
      , ("total_relationships", .num total_relationships) ]
  , mode := "empty" }

/-- The `stats` dictionary of the fallback response. -/
def fallbackStats (search_results : List VectorSearchResult)
    (source_attributions : List SourceAttribution) : List (String × StatValue) :=
  [ ("search_results_count", .num search_results.length)
  , ("sources_count", .num (firstDedup (source_attributions.map (fun a => a.source))).length)
  , ("mode", .str "fallback")
  , ("reason", .str "Cultural Cartographer temporarily unavailable") ]

/-- `QueryProcessor.fallback_response`: a fresh basic search (the caller's
`k`, `min_confidence` 0.1, no filters); the empty response when that search
raises or finds nothing; otherwise the deterministic fallback reply. -/
def fallback_response
    (search : SearchCallArgs → Except Unit (List VectorSearchResult))
    (total_relationships : Nat) (query : String) (k : Nat) : QueryResponse :=
  match search { query := query, k := k, source_filter := none, entity_filter := none
               , min_confidence := 1/10 } with
  | .error _ => _create_empty_response total_relationships query
  | .ok search_results =>
    if search_results.isEmpty then _create_empty_response total_relationships query
    else
      let source_attributions := _extract_source_attributions search_results
      { response := _build_fallback_text query search_results
      , sources := source_attributions
      , query_time_ms := 0
      , discovery_pathways := none
      , stats := fallbackStats search_results source_attributions
      , mode := "fallback" }

/-- The `stats` dictionary of the full (legacy) response path. -/
def fullStats (search_results : List VectorSearchResult)
    (source_attributions : List SourceAttribution) (total_relationships : Nat) :
    List (String × StatValue) :=
  [ ("search_results_count", .num search_results.length)
  , ("sources_count", .num (firstDedup (source_attributions.map (fun a => a.source))).length)
  , ("total_relationships", .num total_relationships)
  , ("average_confidence", .num
      (if search_results.isEmpty then 0
       else (search_results.map (fun r => r.similarity_score)).sum /
         (search_results.length : ℚ))) ]

/-- `QueryProcessor._create_enhanced_response`.  `int()` truncation of the
two non-negative products is modelled by the floor. -/
def _create_enhanced_response (total_relationships : Nat) (_query : String)
    (cultural_response : String)
    (enhanced_attributions : List EnhancedSourceAttribution)
    (search_results : List VectorSearchResult) (quality_metrics : QualityMetrics) :
    EnhancedQueryResponse :=
  { response := cultural_response
  , sources := enhanced_attributions
  , query_time_ms := 0
  , discovery_pathways := some
      (_extract_enhanced_discovery_pathways cultural_response enhanced_attributions)
  , stats :=
      [ ("search_results_count", .num search_results.length)
      , ("sources_count", .num enhanced_attributions.length)
      , ("total_relationships", .num total_relationships)
      , ("average_confidence", .num
          (if enhanced_attributions.isEmpty then 0
           else (enhanced_attributions.map (fun a => a.confidence)).sum /
             (enhanced_attributions.length : ℚ)))
      , ("attribution_completeness", .num quality_metrics.attribution_quality)
      , ("citation_ready_sources", .num
          (⌊quality_metrics.citation_readiness * (enhanced_attributions.length : ℚ)⌋ : ℤ))
      , ("verified_sources", .num
          (⌊quality_metrics.source_verification_score * (enhanced_attributions.length : ℚ)⌋ : ℤ)) ]
  , mode := "enhanced"
  , attribution_quality := quality_metrics.attribution_quality
  , citation_readiness := quality_metrics.citation_readiness
  , source_verification_score := quality_metrics.source_verification_score }

/-- `QueryProcessor.process_query`.  The two effectful collaborators are the
`search` oracle (`VectorStoreClient.search`) and the `generate` oracle
(`CulturalCartographer.generate_response`); `.error ()` models the call
raising.  The top-level `except` of the source is the two `.error` branches
routing to `fallback_response`; everything else on the path is pure. -/
def process_query
    (search : SearchCallArgs → Except Unit (List VectorSearchResult))
    (generate : CulturalCartographerContext → Except Unit String)
    (total_relationships : Nat) (source_distribution : List (String × Nat))
    (query : String) (k : Nat)
    (source_filter entity_filter : Option (List String)) : ProcessQueryResult :=
  match search { query := query, k := max k 10, source_filter := source_filter
               , entity_filter := entity_filter, min_confidence := 1/10 } with
  | .error _ => .legacy (fallback_response search total_relationships query k)
  | .ok search_results =>
    if search_results.isEmpty then
      .legacy (_create_empty_response total_relationships query)
    else
      match generate { query := query, search_results := search_results
                     , total_relationships := total_relationships
                     , source_distribution := source_distribution } with
      | .error _ => .legacy (fallback_response search total_relationships query k)
      | .ok cultural_response =>
        let enhanced_attributions := _extract_enhanced_source_attributions search_results
        let quality_metrics := _calculate_attribution_quality_metrics enhanced_attributions
        if (3:ℚ)/10 < quality_metrics.attribution_quality then
          .enhanced (_create_enhanced_response total_relationships query cultural_response
            enhanced_attributions search_results quality_metrics)
        else
          let source_attributions := _extract_source_attributions search_results
          .legacy
            { response := cultural_response
            , sources := source_attributions
            , query_time_ms := 0
            , discovery_pathways :=
                some (_extract_discovery_pathways cultural_response search_results)
            , stats := fullStats search_results source_attributions total_relationships
            , mode := "full" }

/-! ## Citation service verification cache
(`services/query-service/src/citation_service.py`) -/

/-- `citation_service.SourceVerification`, with `last_checked` modelled as a
POSIX timestamp in whole seconds (every cached entry has it set, because
`verify_source` stamps it before caching). -/
structure SourceVerification where
  url : String
  is_accessible : Bool
  status_code : Option Nat
  last_checked : Int
  redirect_url : Option String
  domain_credibility : Option ℚ
  ssl_valid : Bool
  error_message : Option String
deriving DecidableEq

/-- The value Python computes for
`(now - cached.last_checked).seconds` on a non-negative interval of whole
seconds: the seconds component of the timedelta, i.e. the total seconds
reduced modulo 86400 (one day).  This is the `.seconds` attribute the cache
test of `verify_source` reads — NOT `total_seconds()`. -/
def timedeltaSecondsComponent (now last_checked : Int) : Int :=
  (now - last_checked) % 86400

/-- The cache decision and cache update of `CitationService.verify_source`:
return the cached entry when `(now - cached.last_checked).seconds < 3600`,
otherwise run the live check (the whole network part of the source, an
oracle here) and store its result in the cache.  Returns the verification
together with the updated cache map. -/
def verify_source (cache : String → Option SourceVerification) (now : Int)
    (live_check : String → SourceVerification) (url : String) :
    SourceVerification × (String → Option SourceVerification) :=
  match cache url with
  | some cached =>
    if timedeltaSecondsComponent now cached.last_checked < 3600 then (cached, cache)
    else
      let verification := live_check url
      (verification, fun u => if u = url then some verification else cache u)
  | none =>
    let verification := live_check url
    (verification, fun u => if u = url then some verification else cache u)

/-! ## Concrete fixtures for counterexamples and witnesses -/

/-- A relationship whose entities are non-empty but whose
`relationship_type` is absent: the projection claim and the code diverge
here. -/
def relNoType : Relationship :=
  { source_entity := some "Bob Dylan"
  , target_entity := some "Woody Guthrie"
  , relationship_type := none
  , confidence := none
  , evidence := none
  , cultural_context := none
  , temporal_context := none
  , cultural_significance := none
  , sa_source := none
  , sa_url := none
  , sa_publication_type := none }

/-- A search result fixture with no enhanced attribution metadata. -/
def sampleResult : VectorSearchResult :=
  { chunk_id := "enhanced-rel-0"
  , content := "Bob Dylan influence Woody Guthrie."
  , similarity_score := 1
  , source_info :=
      { source := some "NPR"
      , title := some "Bob Dylan - Woody Guthrie Relationship"
      , url := some "https://npr.org/x"
      , author := none
      , published_date := none
      , content_type := some "article" }
  , entities := ["Bob Dylan", "Woody Guthrie"]
  , chunk_metadata :=
      { relationship_type := some "influence"
      , entity_attributions := []
      , chunk_start_position := none
      , chunk_end_position := none
      , paragraph_numbers := []
      , evidence_type := none
      , attribution_completeness := none } }

/-- A search oracle that always succeeds with the single sample result. -/
def searchOkOne : SearchCallArgs → Except Unit (List VectorSearchResult) :=
  fun _ => .ok [sampleResult]

/-- A search oracle that always succeeds with no results. -/
def searchOkEmpty : SearchCallArgs → Except Unit (List VectorSearchResult) :=
  fun _ => .ok []

/-- A synthesizer oracle that always raises. -/
def generateRaises : CulturalCartographerContext → Except Unit String :=
  fun _ => .error ()

/-- A synthesizer oracle that always returns a fixed reply. -/
def generateOk : CulturalCartographerContext → Except Unit String :=
  fun _ => .ok "A narrative about Bob Dylan and Woody Guthrie."

/-- A stale cache entry for the verification-cache claim: last checked at
time 0. -/
def staleVerification : SourceVerification :=
  { url := "https://npr.org/x"
  , is_accessible := true
  , status_code := some 200
  , last_checked := 0
  , redirect_url := none
  , domain_credibility := none
  , ssl_valid := true
  , error_message := none }

/-- A cache holding exactly `staleVerification` under its URL. -/
def staleCache : String → Option SourceVerification :=
  fun u => if u = "https://npr.org/x" then some staleVerification else none

/-- A live-check oracle returning a visibly different verification, so that
reuse of the cached entry is observable. -/
def liveCheckFresh : String → SourceVerification :=
  fun u =>
    { url := u
    , is_accessible := false
    , status_code := some 404
    , last_checked := 86400
    , redirect_url := none
    , domain_credibility := none
    , ssl_valid := true
    , error_message := some "Client error: not found" }

/-! ## Helper lemmas -/

theorem strAppendAssoc (a b c : String) : a ++ b ++ c = a ++ (b ++ c) := by
  apply String.ext
  simp [String.data_append, List.append_assoc]

theorem hitSortLe_trans (a b c : SearchHit)
    (hab : hitSortLe a b = true) (hbc : hitSortLe b c = true) : hitSortLe a c = true := by
  unfold hitSortLe at *
  rw [decide_eq_true_iff] at *
  rcases hab with h1 | ⟨h1, h1c⟩ <;> rcases hbc with h2 | ⟨h2, h2c⟩
  · exact Or.inl (lt_trans h2 h1)
  · exact Or.inl (h2 ▸ h1)
  · exact Or.inl (h1 ▸ h2)
  · exact Or.inr ⟨h2.trans h1, le_trans h2c h1c⟩

theorem hitSortLe_total (a b : SearchHit) :
    (hitSortLe a b || hitSortLe b a) = true := by
  unfold hitSortLe
  rcases lt_trichotomy a.relevance_score b.relevance_score with h | h | h
  · simp [h]
  · rcases le_total (relConfidence a.relationship) (relConfidence b.relationship) with hc | hc
    · simp [h, hc]
    · simp [h, hc]
  · simp [h]

theorem relevanceHit_eq_some {query : String} {r : Relationship} {hit : SearchHit}
    (h : relevanceHit query r = some hit) :
    hit.relationship = r ∧ 0 < termMatches query r ∧
      hit.relevance_score = (termMatches query r : ℚ) / ((queryTerms query).length : ℚ) := by
  simp only [relevanceHit] at h
  split at h
  · rename_i hm
    cases h
    exact ⟨rfl, hm, rfl⟩
  · cases h

theorem mem_search_relationships
    {relationships : List Relationship} {query : String} {k : Nat}
    {source_filter entity_filter : Option String} {min_confidence : ℚ} {hit : SearchHit}
    (h : hit ∈ search_relationships relationships query k source_filter entity_filter
      min_confidence) :
    ∃ r ∈ relationships,
      passesFilters source_filter entity_filter min_confidence r = true ∧
      relevanceHit query r = some hit := by
  unfold search_relationships at h
  split at h
  · simp at h
  · have h1 : hit ∈ (relationships.filterMap (fun r =>
        if passesFilters source_filter entity_filter min_confidence r then
          relevanceHit query r
        else none)).mergeSort hitSortLe :=
      (List.take_sublist _ _).mem h
    have h2 := (List.mergeSort_perm _ hitSortLe).mem_iff.mp h1
    obtain ⟨r, hr, hf⟩ := List.mem_filterMap.mp h2
    refine ⟨r, hr, ?_⟩
    by_cases hp : passesFilters source_filter entity_filter min_confidence r = true
    · rw [if_pos hp] at hf
      exact ⟨hp, hf⟩
    · rw [if_neg hp] at hf
      cases hf

theorem search_relationships_forall_of_hit
    {relationships : List Relationship} {query : String} {k : Nat}
    {source_filter entity_filter : Option String} {min_confidence : ℚ}
    {p : SearchHit → Prop}
    (h : ∀ r hit, r ∈ relationships →
      passesFilters source_filter entity_filter min_confidence r = true →
      relevanceHit query r = some hit → p hit) :
    (search_relationships relationships query k source_filter entity_filter
      min_confidence).Forall p := by
  rw [List.forall_iff_forall_mem]
  intro hit hmem
  obtain ⟨r, hr, hp, hrel⟩ := mem_search_relationships hmem
  exact h r hit hr hp hrel

/-! ## Claim theorems -/

/-- C7 counterexample: the claim states that the entity-pair fragment is
included iff both entities AND the relationship type are non-empty.  On a
relationship with non-empty entities but an absent type, the code still
emits the fragment (with a doubled space), while the claimed projection
emits nothing, so the claimed projection differs from the code. -/
theorem C7_counterexample :
    _create_searchable_text_from_relationship relNoType
      = "Bob Dylan  Woody Guthrie" ∧
    projectionPerClaim relNoType = "" ∧
    _create_searchable_text_from_relationship relNoType ≠ projectionPerClaim relNoType := by
  refine ⟨by decide, by decide, by decide⟩

/-- C7 (amended): the projection to searchable text is the space-join of the
present-only fragments, where the entity-pair fragment is included iff both
entities are non-empty (the relationship type is interpolated unchecked),
evidence iff non-empty, cultural context iff present, temporal context iff
present, and the source fragment iff sourceAttribution.source is non-empty;
absent fragments are omitted, never blank-inserted. -/
theorem C7_projection_amended (r : Relationship) :
    _create_searchable_text_from_relationship r = projectionAmended r := by
  unfold _create_searchable_text_from_relationship projectionAmended pyTruthyStr
  by_cases h1 : r.source_entity.getD "" = "" <;>
  by_cases h2 : r.target_entity.getD "" = "" <;>
  by_cases h3 : r.evidence.getD "" = "" <;>
  by_cases h4 : r.cultural_context.getD "" = "" <;>
  by_cases h5 : r.temporal_context.getD "" = "" <;>
  by_cases h6 : r.sa_source.getD "" = "" <;>
  simp [h1, h2, h3, h4, h5, h6]

/-- C9: the claim says a cached verification older than one hour is never
reused, and the source's own comment says the same ("Use cache if less than
1 hour old") — but the code tests `(now - last_checked).seconds < 3600`,
the seconds COMPONENT of the timedelta instead of its total seconds.  At a
cache age of exactly 24 hours the component is 0, so `verify_source`
returns the stale cached entry and never runs the live check. -/
theorem C9_stale_cache_reused_after_24h :
    (86400 : Int) - staleVerification.last_checked = 86400 ∧
    (3600 : Int) ≤ 86400 - staleVerification.last_checked ∧
    timedeltaSecondsComponent 86400 staleVerification.last_checked < 3600 ∧
    (verify_source staleCache 86400 liveCheckFresh "https://npr.org/x").1
      = staleVerification ∧
    (verify_source staleCache 86400 liveCheckFresh "https://npr.org/x").1
      ≠ liveCheckFresh "https://npr.org/x" := by
  refine ⟨by decide, by decide, by decide, by decide, by decide⟩

/-- C10: `VectorService.search` passes only the first element of each filter
list to `IndexManager.search_relationships`; the remaining elements change
neither the hits nor their converted form, so the returned results are the
same as when only the head of each list is supplied. -/
theorem C10_only_first_filter_element_used
    (relationships : List Relationship) (query : String) (k : Nat)
    (x : String) (rest rest2 : List String) (y : String) (erest erest2 : List String)
    (min_confidence : ℚ) :
    firstFilter (some (x :: rest)) = some x ∧
    firstFilter (some (y :: erest)) = some y ∧
    (vector_service_search relationships query k (some (x :: rest)) (some (y :: erest))
        min_confidence).results
      = (vector_service_search relationships query k (some (x :: rest2))
          (some (y :: erest2)) min_confidence).results ∧
    (vector_service_search relationships query k (some (x :: rest)) (some (y :: erest))
        min_confidence).total_results
      = (vector_service_search relationships query k (some (x :: rest2))
          (some (y :: erest2)) min_confidence).total_results ∧
    (vector_service_search relationships query k (some (x :: rest)) (some (y :: erest))
        min_confidence).results
      = (vector_service_search relationships query k (some [x]) (some [y])
          min_confidence).results := by
  exact ⟨rfl, rfl, rfl, rfl, rfl⟩

/-- C4: the attribution quality is the average of the per-attribution
scores; each per-attribution score is the sum of 0.3 for evidence text
longer than 10 characters, 0.2 for a present (truthy) url, 0.2 for a
present citation, 0.2 for a present paragraph number or both positions,
and 0.1 for confidence above 0.7; every per-attribution score is at most
1; and on an empty attribution list all three metrics are exactly 0. -/
theorem C4_attribution_quality_formula
    (attributions : List EnhancedSourceAttribution) (attr : EnhancedSourceAttribution) :
    (_calculate_attribution_quality_metrics attributions).attribution_quality
      = (if attributions.isEmpty then 0
         else (attributions.map attributionScore).sum / (attributions.length : ℚ)) ∧
    attributionScore attr =
      (if 10 < attr.evidence_text.length then (3:ℚ)/10 else 0) +
      (if pyTruthyOptStr attr.url then (2:ℚ)/10 else 0) +
      (if pyTruthyOptStr attr.citation then (2:ℚ)/10 else 0) +
      (if pyTruthyOptInt attr.paragraph_number ||
          (pyTruthyOptInt attr.start_position && pyTruthyOptInt attr.end_position)
        then (2:ℚ)/10 else 0) +
      (if (7:ℚ)/10 < attr.confidence then (1:ℚ)/10 else 0) ∧
    attributionScore attr ≤ 1 ∧
    _calculate_attribution_quality_metrics [] =
      { attribution_quality := 0, citation_readiness := 0
      , source_verification_score := 0 } := by
  have hscore : attributionScore attr =
      (if 10 < attr.evidence_text.length then (3:ℚ)/10 else 0) +
      (if pyTruthyOptStr attr.url then (2:ℚ)/10 else 0) +
      (if pyTruthyOptStr attr.citation then (2:ℚ)/10 else 0) +
      (if pyTruthyOptInt attr.paragraph_number ||
          (pyTruthyOptInt attr.start_position && pyTruthyOptInt attr.end_position)
        then (2:ℚ)/10 else 0) +
      (if (7:ℚ)/10 < attr.confidence then (1:ℚ)/10 else 0) := by
    have hlen : (10 < attr.evidence_text.length) →
        pyTruthyStr attr.evidence_text = true := by
      intro hl
      unfold pyTruthyStr
      rw [decide_eq_true_iff]
      intro hcontra
      rw [hcontra] at hl
      simp [String.length] at hl
    have hcond : (pyTruthyStr attr.evidence_text &&
        decide (10 < attr.evidence_text.length)) =
        decide (10 < attr.evidence_text.length) := by
      by_cases h : 10 < attr.evidence_text.length
      · simp [hlen h, h]
      · simp [h]
    unfold attributionScore
    rw [hcond]
    by_cases h1 : 10 < attr.evidence_text.length <;>
    by_cases h2 : pyTruthyOptStr attr.url = true <;>
    by_cases h3 : pyTruthyOptStr attr.citation = true <;>
    by_cases h4 : (pyTruthyOptInt attr.paragraph_number ||
        (pyTruthyOptInt attr.start_position && pyTruthyOptInt attr.end_position)) = true <;>
    by_cases h5 : (7:ℚ)/10 < attr.confidence <;>
    simp [h1, h2, h3, h4, h5]
  refine ⟨?_, hscore, ?_, rfl⟩
  · unfold _calculate_attribution_quality_metrics
    by_cases he : attributions.isEmpty
    · simp [he]
    · simp [he, List.length_map]
  · rw [hscore]
    by_cases h1 : 10 < attr.evidence_text.length <;>
    by_cases h2 : pyTruthyOptStr attr.url = true <;>
    by_cases h3 : pyTruthyOptStr attr.citation = true <;>
    by_cases h4 : (pyTruthyOptInt attr.paragraph_number ||
        (pyTruthyOptInt attr.start_position && pyTruthyOptInt attr.end_position)) = true <;>
    by_cases h5 : (7:ℚ)/10 < attr.confidence <;>
    simp [h1, h2, h3, h4, h5] <;> norm_num

/-- C5: every hit returned by the relationship search has relevance score
equal to the number of query terms occurring as substrings of the
lower-cased projected text of its relationship, divided by the total number
of query terms; relationships with zero matching terms are excluded, so
every returned hit has a positive match count and positive relevance. -/
theorem C5_relevance_score_is_term_fraction
    (relationships : List Relationship) (query : String) (k : Nat)
    (source_filter entity_filter : Option String) (min_confidence : ℚ) :
    (search_relationships relationships query k source_filter entity_filter
      min_confidence).Forall (fun hit =>
        hit.relevance_score =
          (termMatches query hit.relationship : ℚ) / ((queryTerms query).length : ℚ) ∧
        0 < termMatches query hit.relationship ∧
        0 < hit.relevance_score) := by
  apply search_relationships_forall_of_hit
  intro r hit _ _ hrel
  obtain ⟨hrrel, hpos, hscore⟩ := relevanceHit_eq_some hrel
  subst hrrel
  refine ⟨hscore, hpos, ?_⟩
  rw [hscore]
  have hterms : 0 < (queryTerms query).length := by
    by_contra hc
    have : (queryTerms query).length = 0 := Nat.eq_zero_of_not_pos hc
    have hzero : termMatches query hit.relationship = 0 := by
      unfold termMatches
      have := List.length_filter_le
        (fun term => strContainsB (lowerStr
          (_create_searchable_text_from_relationship hit.relationship)) term)
        (queryTerms query)
      omega
    omega
  exact div_pos (by exact_mod_cast hpos) (by exact_mod_cast hterms)

/-- C6: the hit list returned by the relationship search is sorted in
descending lexicographic order of the pair (relevance score, relationship
confidence) — equal relevance is ordered by descending confidence — and has
at most `k` elements. -/
theorem C6_sorted_descending_and_truncated
    (relationships : List Relationship) (query : String) (k : Nat)
    (source_filter entity_filter : Option String) (min_confidence : ℚ) :
    (search_relationships relationships query k source_filter entity_filter
        min_confidence).Pairwise (fun a b =>
          b.relevance_score < a.relevance_score ∨
          (b.relevance_score = a.relevance_score ∧
           relConfidence b.relationship ≤ relConfidence a.relationship)) ∧
    (search_relationships relationships query k source_filter entity_filter
        min_confidence).length ≤ k := by
  constructor
  · unfold search_relationships
    split
    · exact List.Pairwise.nil
    · apply List.Pairwise.sublist (List.take_sublist _ _)
      have hs := @List.sorted_mergeSort SearchHit hitSortLe
        hitSortLe_trans hitSortLe_total
        (relationships.filterMap (fun r =>
          if passesFilters source_filter entity_filter min_confidence r then
            relevanceHit query r
          else none))
      apply hs.imp
      intro a b hab
      exact of_decide_eq_true hab
  · unfold search_relationships
    split
    · simp
    · exact List.length_take_le _ _

/-- C8: every hit returned by the relationship search satisfies all the
given filters: a truthy source filter occurs case-insensitively as a
substring of the relationship's sourceAttribution.source, a truthy entity
filter occurs case-insensitively in at least one of the two entity names,
and the relationship's confidence is at least `min_confidence`. -/
theorem C8_returned_hits_satisfy_filters
    (relationships : List Relationship) (query : String) (k : Nat)
    (source_filter entity_filter : Option String) (min_confidence : ℚ) :
    (search_relationships relationships query k source_filter entity_filter
      min_confidence).Forall (fun hit =>
        (match source_filter with
         | none => True
         | some f => f = "" ∨
             strContains (lowerStr (hit.relationship.sa_source.getD "")) (lowerStr f)) ∧
        (match entity_filter with
         | none => True
         | some f => f = "" ∨
             strContains (lowerStr (hit.relationship.source_entity.getD "")) (lowerStr f) ∨
             strContains (lowerStr (hit.relationship.target_entity.getD "")) (lowerStr f)) ∧
        min_confidence ≤ relConfidence hit.relationship) := by
  apply search_relationships_forall_of_hit
  intro r hit _ hpass hrel
  obtain ⟨hrrel, _, _⟩ := relevanceHit_eq_some hrel
  subst hrrel
  unfold passesFilters at hpass
  rw [Bool.and_eq_true, Bool.and_eq_true] at hpass
  obtain ⟨⟨hsrc, hent⟩, hconf⟩ := hpass
  refine ⟨?_, ?_, of_decide_eq_true hconf⟩
  · unfold sourceFilterOk at hsrc
    match hsf : source_filter with
    | none => trivial
    | some f =>
      dsimp only at hsrc ⊢
      by_cases hf : f = ""
      · exact Or.inl hf
      · rw [if_neg hf] at hsrc
        exact Or.inr (of_decide_eq_true hsrc)
  · unfold entityFilterOk at hent
    match hef : entity_filter with
    | none => trivial
    | some f =>
      dsimp only at hent ⊢
      by_cases hf : f = ""
      · exact Or.inl hf
      · rw [if_neg hf] at hent
        rcases Bool.or_eq_true _ _ |>.mp hent with h | h
        · exact Or.inr (Or.inl (of_decide_eq_true h))
        · exact Or.inr (Or.inr (of_decide_eq_true h))

theorem strAppendMid5 (a q b f c : String) :
    a ++ q ++ b ++ f ++ c = a ++ q ++ (b ++ f ++ c) := by
  simp [strAppendAssoc]

/-- C2: when the search returns zero hits, process_query returns the
mode-"empty" response with no sources, whose text contains the literal
query string and the (comma-formatted) corpus relationship count; and the
result does not depend on the synthesizer oracle, which is therefore never
invoked on this path. -/
theorem C2_zero_hits_empty_response
    (search : SearchCallArgs → Except Unit (List VectorSearchResult))
    (generate : CulturalCartographerContext → Except Unit String)
    (total_relationships : Nat) (source_distribution : List (String × Nat))
    (query : String) (k : Nat) (source_filter entity_filter : Option (List String))
    (hsearch : search { query := query, k := max k 10, source_filter := source_filter
                      , entity_filter := entity_filter, min_confidence := 1/10 }
      = .ok []) :
    process_query search generate total_relationships source_distribution query k
        source_filter entity_filter
      = .legacy (_create_empty_response total_relationships query) ∧
    (_create_empty_response total_relationships query).mode = "empty" ∧
    (_create_empty_response total_relationships query).sources = [] ∧
    (∃ s t, (_create_empty_response total_relationships query).response
        = s ++ query ++ t) ∧
    (∃ s t, (_create_empty_response total_relationships query).response
        = s ++ formatThousands total_relationships ++ t) ∧
    (∀ generate2 : CulturalCartographerContext → Except Unit String,
      process_query search generate2 total_relationships source_distribution query k
          source_filter entity_filter
        = process_query search generate total_relationships source_distribution query k
            source_filter entity_filter) := by
  refine ⟨?_, rfl, rfl, ?_, ?_, ?_⟩
  · unfold process_query
    rw [hsearch]
    rfl
  · show ∃ s t, emptyResponseText total_relationships query = s ++ query ++ t
    unfold emptyResponseText
    exact ⟨_, _, strAppendMid5 _ query _ _ _⟩
  · show ∃ s t, emptyResponseText total_relationships query
        = s ++ formatThousands total_relationships ++ t
    unfold emptyResponseText
    exact ⟨_, _, rfl⟩
  · intro generate2
    unfold process_query
    rw [hsearch]
    rfl

/-- C2 witness: a concrete search oracle returning no hits. -/
theorem C2_witness :
    searchOkEmpty { query := "unknown topic", k := max 5 10, source_filter := none
                  , entity_filter := none, min_confidence := 1/10 } = .ok [] ∧
    process_query searchOkEmpty generateOk 2787 [] "unknown topic" 5 none none
      = .legacy (_create_empty_response 2787 "unknown topic") := by
  exact ⟨rfl, (C2_zero_hits_empty_response searchOkEmpty generateOk 2787 []
    "unknown topic" 5 none none rfl).1⟩

/-- C1: when the initial search succeeded with at least one hit and the
synthesizer raises, process_query returns `fallback_response query k`; the
fallback re-runs a fresh basic search (the caller's `k`, min_confidence
0.1, no filters) and returns the mode-"fallback" response built from the
fresh hits, or the mode-"empty" response when that fallback search raises
or finds nothing.  No exception propagates: the model is total. -/
theorem C1_synthesis_failure_falls_back
    (search : SearchCallArgs → Except Unit (List VectorSearchResult))
    (generate : CulturalCartographerContext → Except Unit String)
    (total_relationships : Nat) (source_distribution : List (String × Nat))
    (query : String) (k : Nat) (source_filter entity_filter : Option (List String))
    (hits : List VectorSearchResult)
    (hsearch : search { query := query, k := max k 10, source_filter := source_filter
                      , entity_filter := entity_filter, min_confidence := 1/10 }
      = .ok hits)
    (hne : hits ≠ [])
    (hgen : generate { query := query, search_results := hits
                     , total_relationships := total_relationships
                     , source_distribution := source_distribution } = .error ()) :
    process_query search generate total_relationships source_distribution query k
        source_filter entity_filter
      = .legacy (fallback_response search total_relationships query k) ∧
    (match search { query := query, k := k, source_filter := none, entity_filter := none
                  , min_confidence := 1/10 } with
     | .error _ =>
         fallback_response search total_relationships query k
           = _create_empty_response total_relationships query
     | .ok fresh =>
         if fresh.isEmpty then
           fallback_response search total_relationships query k
             = _create_empty_response total_relationships query
         else
           fallback_response search total_relationships query k
             = { response := _build_fallback_text query fresh
               , sources := _extract_source_attributions fresh
               , query_time_ms := 0
               , discovery_pathways := none
               , stats := fallbackStats fresh (_extract_source_attributions fresh)
               , mode := "fallback" }) := by
  constructor
  · unfold process_query
    rw [hsearch]
    dsimp only
    rw [if_neg (by simp [hne])]
    rw [hgen]
  · cases hbasic : search { query := query, k := k, source_filter := none, entity_filter := none, min_confidence := 1/10 } with
    | error e =>
      unfold fallback_response
      rw [hbasic]
    | ok fresh =>
      unfold fallback_response
      rw [hbasic]
      dsimp only
      by_cases hf : fresh.isEmpty
      · simp [hf]
      · simp [hf]

/-- C1 witness: a search oracle that always finds the sample hit and a
synthesizer oracle that always raises. -/
theorem C1_witness :
    searchOkOne { query := "Bob Dylan influence", k := max 5 10, source_filter := none
                , entity_filter := none, min_confidence := 1/10 } = .ok [sampleResult] ∧
    ([sampleResult] : List VectorSearchResult) ≠ [] ∧
    generateRaises { query := "Bob Dylan influence", search_results := [sampleResult]
                   , total_relationships := 2787, source_distribution := [] }
      = .error () ∧
    process_query searchOkOne generateRaises 2787 [] "Bob Dylan influence" 5 none none
      = .legacy (fallback_response searchOkOne 2787 "Bob Dylan influence" 5) := by
  refine ⟨rfl, by simp, rfl, ?_⟩
  exact (C1_synthesis_failure_falls_back searchOkOne generateRaises 2787 []
    "Bob Dylan influence" 5 none none [sampleResult] rfl (by simp) rfl).1

/-- C3: when the search returned hits and synthesis succeeded, the result is
the enhanced response exactly when the computed attribution quality exceeds
0.3 (and it then carries the three quality metrics and mode "enhanced");
otherwise it is the mode-"full" legacy response whose sources are the basic
attributions extracted from the same search hits. -/
theorem C3_enhanced_iff_quality_above_threshold
    (search : SearchCallArgs → Except Unit (List VectorSearchResult))
    (generate : CulturalCartographerContext → Except Unit String)
    (total_relationships : Nat) (source_distribution : List (String × Nat))
    (query : String) (k : Nat) (source_filter entity_filter : Option (List String))
    (hits : List VectorSearchResult) (cultural_response : String)
    (hsearch : search { query := query, k := max k 10, source_filter := source_filter
                      , entity_filter := entity_filter, min_confidence := 1/10 }
      = .ok hits)
    (hne : hits ≠ [])
    (hgen : generate { query := query, search_results := hits
                     , total_relationships := total_relationships
                     , source_distribution := source_distribution }
      = .ok cultural_response) :
    process_query search generate total_relationships source_distribution query k
        source_filter entity_filter
      = (if (3:ℚ)/10 < (_calculate_attribution_quality_metrics
            (_extract_enhanced_source_attributions hits)).attribution_quality then
           .enhanced (_create_enhanced_response total_relationships query
             cultural_response (_extract_enhanced_source_attributions hits) hits
             (_calculate_attribution_quality_metrics
               (_extract_enhanced_source_attributions hits)))
         else
           .legacy { response := cultural_response
                   , sources := _extract_source_attributions hits
                   , query_time_ms := 0
                   , discovery_pathways :=
                       some (_extract_discovery_pathways cultural_response hits)
                   , stats := fullStats hits (_extract_source_attributions hits)
                       total_relationships
                   , mode := "full" }) ∧
    (process_query search generate total_relationships source_distribution query k
        source_filter entity_filter).isEnhanced
      = decide ((3:ℚ)/10 < (_calculate_attribution_quality_metrics
          (_extract_enhanced_source_attributions hits)).attribution_quality) ∧
    (_create_enhanced_response total_relationships query cultural_response
        (_extract_enhanced_source_attributions hits) hits
        (_calculate_attribution_quality_metrics
          (_extract_enhanced_source_attributions hits))).mode = "enhanced" ∧
    (_create_enhanced_response total_relationships query cultural_response
        (_extract_enhanced_source_attributions hits) hits
        (_calculate_attribution_quality_metrics
          (_extract_enhanced_source_attributions hits))).attribution_quality
      = (_calculate_attribution_quality_metrics
          (_extract_enhanced_source_attributions hits)).attribution_quality ∧
    (_create_enhanced_response total_relationships query cultural_response
        (_extract_enhanced_source_attributions hits) hits
        (_calculate_attribution_quality_metrics
          (_extract_enhanced_source_attributions hits))).citation_readiness
      = (_calculate_attribution_quality_metrics
          (_extract_enhanced_source_attributions hits)).citation_readiness ∧
    (_create_enhanced_response total_relationships query cultural_response
        (_extract_enhanced_source_attributions hits) hits
        (_calculate_attribution_quality_metrics
          (_extract_enhanced_source_attributions hits))).source_verification_score
      = (_calculate_attribution_quality_metrics
          (_extract_enhanced_source_attributions hits)).source_verification_score := by
  have hmain : process_query search generate total_relationships source_distribution
      query k source_filter entity_filter
      = (if (3:ℚ)/10 < (_calculate_attribution_quality_metrics
            (_extract_enhanced_source_attributions hits)).attribution_quality then
           .enhanced (_create_enhanced_response total_relationships query
             cultural_response (_extract_enhanced_source_attributions hits) hits
             (_calculate_attribution_quality_metrics
               (_extract_enhanced_source_attributions hits)))
         else
           .legacy { response := cultural_response
                   , sources := _extract_source_attributions hits
                   , query_time_ms := 0
                   , discovery_pathways :=
                       some (_extract_discovery_pathways cultural_response hits)
                   , stats := fullStats hits (_extract_source_attributions hits)
                       total_relationships
                   , mode := "full" }) := by
    unfold process_query
    rw [hsearch]
    dsimp only
    rw [if_neg (by simp [hne])]
    rw [hgen]
  refine ⟨hmain, ?_, rfl, rfl, rfl, rfl⟩
  rw [hmain]
  by_cases hq : (3:ℚ)/10 < (_calculate_attribution_quality_metrics
      (_extract_enhanced_source_attributions hits)).attribution_quality
  · simp [hq, ProcessQueryResult.isEnhanced]
  · simp [hq, ProcessQueryResult.isEnhanced]

/-- C3 witness: concrete oracles where search finds the sample hit and
synthesis succeeds. -/
theorem C3_witness :
    searchOkOne { query := "Bob Dylan influence", k := max 5 10, source_filter := none
                , entity_filter := none, min_confidence := 1/10 } = .ok [sampleResult] ∧
    ([sampleResult] : List VectorSearchResult) ≠ [] ∧
    generateOk { query := "Bob Dylan influence", search_results := [sampleResult]
               , total_relationships := 2787, source_distribution := [] }
      = .ok "A narrative about Bob Dylan and Woody Guthrie." ∧
    (process_query searchOkOne generateOk 2787 [] "Bob Dylan influence" 5
        none none).isEnhanced
      = decide ((3:ℚ)/10 < (_calculate_attribution_quality_metrics
          (_extract_enhanced_source_attributions [sampleResult])).attribution_quality) := by
  refine ⟨rfl, by simp, rfl, ?_⟩
  exact (C3_enhanced_iff_quality_above_threshold searchOkOne generateOk 2787 []
    "Bob Dylan influence" 5 none none [sampleResult]
    "A narrative about Bob Dylan and Woody Guthrie." rfl (by simp) rfl).2.1
